import Mathlib

/-!
Shallow embedding of `src/app.py`, a Flask shopping-cart service for a
donation marketplace, backed by a MongoDB `cart` collection and two HTTP
collaborators (the donation inventory service and the notification service).

External effects are modelled as explicit oracle parameters:
an HTTP round-trip either yields a `response` (status code plus parsed JSON
body) or raises a transport-level exception (`transportError`,
`requests.exceptions.RequestException` in the source).  The MongoDB
collection is a `List CartItem`; `find_one({"_id": oid})` is first-match
lookup and `update_one` updates the first match only.
-/

/-- Outcome of one `requests.get/patch/post` round-trip: a response with a
status code and parsed JSON body, or a transport-level exception. -/
inductive HttpResult (α : Type) where
  | response (status : Nat) (body : α)
  | transportError (details : String)
  deriving DecidableEq, Repr

/-- True when the round-trip produced a response (no exception raised). -/
def HttpResult.isResponse {α : Type} : HttpResult α → Bool
  | .response _ _ => true
  | .transportError _ => false

/-- Parsed JSON body of a donation-service `GET /api/donations/{id}`
response.  Every field is optional because the source reads them with
`.get(...)`; `email` and `description` are read with `[...]` but only inside
the swallowed notification block. -/
structure DonationJson where
  available : Option Bool
  title : Option String
  description : Option String
  category : Option String
  condition : Option String
  image_url : Option String
  city : Option String
  email : Option String
  deriving DecidableEq, Repr

/-- A document of the MongoDB `cart` collection.  `id` models `_id` (an
ObjectId rendered as its 24-hex-character string); `claimed_at` is absent
until the claim workflow's local commit sets it. -/
structure CartItem where
  id : String
  user_email : String
  donation_id : String
  notes : String
  created_at : Nat
  status : String
  claimed_at : Option Nat
  deriving DecidableEq, Repr

/-- The `cart` collection. -/
abbrev Store := List CartItem

/-- `ObjectId(cart_item_id)` succeeds exactly on 24-character hex strings;
anything else raises and the handlers return the invalid-id error. -/
def isValidObjectId (s : String) : Bool :=
  s.length == 24 && s.toList.all fun c =>
    c.isDigit || ('a' ≤ c && c ≤ 'f') || ('A' ≤ c && c ≤ 'F')

/-- `mongo.db.cart.find_one({"_id": obj_id})`: first document with that id. -/
def findItem (store : Store) (cid : String) : Option CartItem :=
  store.find? fun it => it.id == cid

/-- `mongo.db.cart.update_one({"_id": obj_id}, {"$set": {"status": "claimed",
"claimed_at": now}})`: sets the first matching document (if any) to
`claimed` with `claimed_at = now`. -/
def updateFirst (store : Store) (cid : String) (now : Nat) : Store :=
  match store with
  | [] => []
  | it :: rest =>
      if it.id == cid then
        { it with status := "claimed", claimed_at := some now } :: rest
      else
        it :: updateFirst rest cid now

/-- Outcome of the `mongo.db.cart.update_one` call in the claim workflow:
it modified one document, it matched/modified none (`modified_count != 1`),
or it raised an exception. -/
inductive DbUpdateOutcome where
  | ok
  | noModify
  | exn (details : String)
  deriving DecidableEq, Repr

/-- The distinct JSON bodies `claim_item` can return, one constructor per
`jsonify(...)` site in the source. -/
inductive ClaimResp where
  /-- `{"error": "Invalid cart item ID"}` -/
  | invalidId
  /-- `{"error": "Item not found in cart"}` -/
  | notFound
  /-- `{"error": "Not authorized to claim this item"}` -/
  | forbidden
  /-- `{"message": "Item already claimed", "item_id", "status": "claimed", "donation_id"}` -/
  | alreadyClaimed (item_id : String) (donation_id : String)
  /-- `{"error": "Item already processed", "current_status"}` -/
  | alreadyProcessed (current_status : String)
  /-- `{"error": "Donation verification failed", "details": status code}` -/
  | verificationFailed (statusCode : Nat)
  /-- `{"error": "Donation no longer available", "donation_id"}` -/
  | notAvailable (donation_id : String)
  /-- `{"error": "Donation service unavailable", "details"}` -/
  | serviceUnavailable (details : String)
  /-- `{"error": "Could not update donation status", "details"}` -/
  | updateFailed (details : String)
  /-- `{"error": "Failed to update donation availability", "details"}` -/
  | updateUnavailable (details : String)
  /-- `{"error": "Failed to update cart item status", "details": "No documents modified"}` -/
  | dbNoModify
  /-- `{"error": "Database update failed", "details"}` -/
  | dbError (details : String)
  /-- `{"message": "Item claimed successfully", "item_id", "donation_id",
  "status": "claimed", "donation_details": {"title", "category"}}` -/
  | success (item_id : String) (donation_id : String)
      (title : Option String) (category : Option String)
  deriving DecidableEq, Repr

/-- HTTP status code, JSON body and post-state of one `claim_item` request. -/
structure ClaimResult where
  code : Nat
  resp : ClaimResp
  store : Store
  deriving DecidableEq, Repr

/-- `claim_item(cart_item_id)` from `src/app.py` (lines 233-408).
`current_user` is the JWT identity; `getRes` is the availability
re-validation `GET`, `patchRes` the availability `PATCH` (its body kept as
the details string the source echoes), `dbRes` the local `update_one`
outcome, `notifRes` the notification `POST`, `now` the commit timestamp.
The notification block only prints on failure, so `notifRes` cannot affect
the result. -/
def claim_item (current_user : String) (cart_item_id : String) (store : Store)
    (getRes : HttpResult DonationJson) (patchRes : HttpResult String)
    (dbRes : DbUpdateOutcome) (notifRes : HttpResult String) (now : Nat) :
    ClaimResult :=
  if ¬ isValidObjectId cart_item_id then
    ⟨400, .invalidId, store⟩
  else
    match findItem store cart_item_id with
    | none => ⟨404, .notFound, store⟩
    | some item =>
      if item.user_email ≠ current_user then
        ⟨403, .forbidden, store⟩
      else if item.status = "claimed" then
        ⟨200, .alreadyClaimed cart_item_id item.donation_id, store⟩
      else if item.status ≠ "pending" then
        ⟨400, .alreadyProcessed item.status, store⟩
      else
        match getRes with
        | .transportError e => ⟨503, .serviceUnavailable e, store⟩
        | .response st donation_data =>
          if st ≠ 200 then
            ⟨400, .verificationFailed st, store⟩
          else if ¬ (donation_data.available.getD false) then
            ⟨400, .notAvailable item.donation_id, store⟩
          else
            match patchRes with
            | .transportError e => ⟨503, .updateUnavailable e, store⟩
            | .response pst pbody =>
              if pst ≠ 200 then
                ⟨400, .updateFailed pbody, store⟩
              else
                match dbRes with
                | .exn e => ⟨500, .dbError e, store⟩
                | .noModify => ⟨500, .dbNoModify, store⟩
                | .ok =>
                  -- the notification round-trip (`notifRes`) is wrapped in
                  -- `try/except Exception` whose handler only prints
                  ⟨200,
                   .success cart_item_id item.donation_id
                     donation_data.title donation_data.category,
                   updateFirst store cart_item_id now⟩

/-- Parsed JSON body of a `POST /cart` request: `donation_id` may be absent
(`'donation_id' not in data`), `notes` is optional. -/
structure AddRequest where
  donation_id : Option String
  notes : Option String
  deriving DecidableEq, Repr

/-- Outcome of `mongo.db.cart.insert_one(cart_item)`: success with the
store-assigned `_id`, a duplicate-key exception from the unique index on
`(user_email, donation_id)`, or an exception with any other cause.  The
source's `except Exception` catches the latter two identically. -/
inductive InsertOutcome where
  | ok (newId : String)
  | dupKeyError (details : String)
  | otherError (details : String)
  deriving DecidableEq, Repr

/-- The distinct JSON bodies `add_to_cart` can return. -/
inductive AddResp where
  /-- `{"error": "Missing required fields"}` -/
  | missingFields
  /-- `{"error": "Donation not available"}` -/
  | notAvailable
  /-- the inserted cart item echoed back with its new `_id` -/
  | created (item : CartItem)
  /-- `{"error": "Item already in cart", "details": str(e)}` -/
  | alreadyInCart (details : String)
  /-- the availability `GET` is not wrapped in try/except: a transport
  failure propagates out of the handler (Flask answers 500) -/
  | unhandledException (details : String)
  deriving DecidableEq, Repr

/-- HTTP status code, JSON body and post-state of one `add_to_cart` request
(`unhandledException` carries Flask's 500 for an uncaught exception). -/
structure AddResult where
  code : Nat
  resp : AddResp
  store : Store
  deriving DecidableEq, Repr

/-- `add_to_cart()` from `src/app.py` (lines 66-124).  `current_user` is the
JWT identity, `data` the parsed request body (`none` when there is no JSON
body), `getRes` the donation-service `GET`, `ins` the `insert_one` outcome,
`now` the creation timestamp. -/
def add_to_cart (current_user : String) (data : Option AddRequest)
    (getRes : HttpResult DonationJson) (ins : InsertOutcome) (now : Nat)
    (store : Store) : AddResult :=
  match data with
  | none => ⟨400, .missingFields, store⟩
  | some body =>
    match body.donation_id with
    | none => ⟨400, .missingFields, store⟩
    | some donation_id =>
      match getRes with
      | .transportError e => ⟨500, .unhandledException e, store⟩
      | .response st donation_data =>
        if st ≠ 200 ∨ ¬ (donation_data.available.getD false) then
          ⟨404, .notAvailable, store⟩
        else
          let cart_item : CartItem :=
            { id := "", user_email := current_user, donation_id := donation_id,
              notes := body.notes.getD "", created_at := now,
              status := "pending", claimed_at := none }
          match ins with
          | .ok newId =>
              let inserted := { cart_item with id := newId }
              ⟨201, .created inserted, store ++ [inserted]⟩
          | .dupKeyError e => ⟨400, .alreadyInCart e, store⟩
          | .otherError e => ⟨400, .alreadyInCart e, store⟩

/-- The donation display fields `get_cart` merges into each returned item. -/
structure DonationDetails where
  title : Option String
  description : Option String
  category : Option String
  condition : Option String
  image_url : Option String
  city : Option String
  deriving DecidableEq, Repr

/-- One element of the list `get_cart` returns. -/
structure EnhancedItem where
  id : String
  user_email : String
  donation_id : String
  notes : String
  created_at : Nat
  status : String
  donation_details : DonationDetails
  deriving DecidableEq, Repr

/-- The display fields extracted from a donation-service response body. -/
def mkDetails (d : DonationJson) : DonationDetails :=
  ⟨d.title, d.description, d.category, d.condition, d.image_url, d.city⟩

/-- One enhanced cart entry, as built in the `get_cart` loop. -/
def mkEnhanced (it : CartItem) (d : DonationJson) : EnhancedItem :=
  ⟨it.id, it.user_email, it.donation_id, it.notes, it.created_at, it.status,
   mkDetails d⟩

/-- The enhancement loop of `get_cart`: for each cart item, `GET` the
donation; a 200 response appends the enhanced item, any other status code
skips it, and a transport-level exception (no try/except in the source)
aborts the whole request. -/
def enhanceCart (gets : String → HttpResult DonationJson) :
    List CartItem → Except String (List EnhancedItem)
  | [] => .ok []
  | it :: rest =>
    match gets it.donation_id with
    | .transportError e => .error e
    | .response st donation_data =>
      (enhanceCart gets rest).map fun tail =>
        if st = 200 then mkEnhanced it donation_data :: tail else tail

/-- `get_cart()` from `src/app.py` (lines 126-187): fetch the caller's cart
rows, enhance each with donation details, return 200 — unless a donation
`GET` raises, in which case the exception propagates (`.error`). -/
def get_cart (current_user : String) (store : Store)
    (gets : String → HttpResult DonationJson) :
    Except String (Nat × List EnhancedItem) :=
  (enhanceCart gets (store.filter fun it => it.user_email == current_user)).map
    fun l => (200, l)

/-- The distinct JSON bodies `remove_from_cart` can return. -/
inductive RemoveResp where
  /-- `{"error": "Invalid cart item ID"}` -/
  | invalidId
  /-- `{"error": "Item not found in cart"}` -/
  | notFound
  /-- `{"error": "Not authorized to remove this item"}` -/
  | forbidden
  /-- `{"message": "Item removed from cart"}` -/
  | removed
  deriving DecidableEq, Repr

/-- HTTP status code, JSON body and post-state of one `remove_from_cart`
request. -/
structure RemoveResult where
  code : Nat
  resp : RemoveResp
  store : Store
  deriving DecidableEq, Repr

/-- `mongo.db.cart.delete_one({"_id": obj_id})`: removes the first matching
document; `deleted_count` is 1 when a match existed. -/
def deleteFirst (store : Store) (cid : String) : Store :=
  match store with
  | [] => []
  | it :: rest => if it.id == cid then rest else it :: deleteFirst rest cid

/-- `remove_from_cart(cart_item_id)` from `src/app.py` (lines 189-231). -/
def remove_from_cart (current_user : String) (cart_item_id : String)
    (store : Store) : RemoveResult :=
  if ¬ isValidObjectId cart_item_id then
    ⟨400, .invalidId, store⟩
  else
    match findItem store cart_item_id with
    | none => ⟨404, .notFound, store⟩
    | some item =>
      if item.user_email ≠ current_user then
        ⟨403, .forbidden, store⟩
      else
        -- the item was just found, so `deleted_count == 1`
        ⟨200, .removed, deleteFirst store cart_item_id⟩

/-- The two JSON bodies `clear_all_cart` can return. -/
inductive ClearResp where
  /-- `{"message": "Cart completely cleared", "deleted_count"}` -/
  | cleared (deleted_count : Nat)
  /-- `{"message": "No items in cart"}` -/
  | empty
  deriving DecidableEq, Repr

/-- HTTP status code, JSON body and post-state of one `clear_all_cart`
request. -/
structure ClearResult where
  code : Nat
  resp : ClearResp
  store : Store
  deriving DecidableEq, Repr

/-- `clear_all_cart()` from `src/app.py` (lines 410-445): delete every
document of the caller regardless of status; zero deletions answers 404. -/
def clear_all_cart (current_user : String) (store : Store) : ClearResult :=
  let deleted := (store.filter fun it => it.user_email == current_user).length
  let remaining := store.filter fun it => ¬ (it.user_email == current_user)
  if deleted > 0 then
    ⟨200, .cleared deleted, remaining⟩
  else
    ⟨404, .empty, remaining⟩

/-- One inbound request to the service, with the collaborator outcomes the
corresponding handler consumes bundled in. -/
inductive Op where
  | add (current_user : String) (data : Option AddRequest)
      (getRes : HttpResult DonationJson) (ins : InsertOutcome) (now : Nat)
  | list (current_user : String) (gets : String → HttpResult DonationJson)
  | remove (current_user : String) (cart_item_id : String)
  | claim (current_user : String) (cart_item_id : String)
      (getRes : HttpResult DonationJson) (patchRes : HttpResult String)
      (dbRes : DbUpdateOutcome) (notifRes : HttpResult String) (now : Nat)
  | clearAll (current_user : String)

/-- Post-state of the cart collection after one request (`get_cart` performs
no write). -/
def runOp (op : Op) (store : Store) : Store :=
  match op with
  | .add u d g i n => (add_to_cart u d g i n store).store
  | .list _ _ => store
  | .remove u cid => (remove_from_cart u cid store).store
  | .claim u cid g p db nf n => (claim_item u cid store g p db nf n).store
  | .clearAll u => (clear_all_cart u store).store

/-- Data-model invariant: `claimed_at` is present iff `status == claimed`. -/
def claimedAtIffClaimed (store : Store) : Prop :=
  ∀ it ∈ store, (it.claimed_at.isSome = true ↔ it.status = "claimed")

instance (store : Store) : Decidable (claimedAtIffClaimed store) := by
  unfold claimedAtIffClaimed; infer_instance

/-- Status-transition legality between two collection states: any item of
the old store that shares its id with an item of the new store is either
unchanged or underwent the `pending → claimed` transition. -/
def statusTransOk (old new : Store) : Prop :=
  ∀ it ∈ old, ∀ it' ∈ new, it.id = it'.id →
    (it' = it ∨ (it.status = "pending" ∧ it'.status = "claimed"))

instance (old new : Store) : Decidable (statusTransOk old new) := by
  unfold statusTransOk; infer_instance

/-- Ids are pairwise distinct in the collection (MongoDB `_id` uniqueness),
and an `insert_one` success is assigned a fresh id. -/
def idsNodup (store : Store) : Prop :=
  (store.map CartItem.id).Nodup

instance (store : Store) : Decidable (idsNodup store) := by
  unfold idsNodup; infer_instance

/-- Store-level well-formedness of a request's collaborator outcomes: a
successful insert yields an id not already present (MongoDB never assigns a
duplicate `_id`). -/
def opWf (op : Op) (store : Store) : Prop :=
  match op with
  | .add _ _ _ (.ok newId) _ => ∀ it ∈ store, it.id ≠ newId
  | _ => True

/-! ## Helper lemmas -/

/-- After the claim workflow's local commit, the committed item is found in
`claimed` state with `claimed_at` set. -/
theorem findItem_updateFirst (store : Store) (cid : String) (now : Nat)
    (item : CartItem) (hfind : findItem store cid = some item) :
    findItem (updateFirst store cid now) cid =
      some { item with status := "claimed", claimed_at := some now } := by
  induction store with
  | nil => simp [findItem] at hfind
  | cons it rest ih =>
      by_cases h : it.id = cid
      · simp [findItem, List.find?_cons, updateFirst, h] at hfind ⊢
        subst hfind
        simp [h]
      · simp [findItem, List.find?_cons, updateFirst, h] at hfind ⊢
        exact ih hfind

/-! ## C1 -/

/-- C1: on a pending item owned by the caller, if the availability `PATCH`
does not succeed — transport-level failure or non-200 response — the claim
returns the corresponding error (503 upstream-unavailable / 400
update-failed) and the cart collection is returned unchanged, so the item
is still `pending` with no `claimed_at` and a retry is safe. -/
theorem claim_patch_failure_preserves_pending
    (current_user cid : String) (store : Store) (item : CartItem)
    (donation_data : DonationJson) (dbRes : DbUpdateOutcome)
    (notifRes : HttpResult String) (now : Nat)
    (hvalid : isValidObjectId cid = true)
    (hfind : findItem store cid = some item)
    (hown : item.user_email = current_user)
    (hpend : item.status = "pending")
    (havail : donation_data.available.getD false = true) :
    (∀ e, claim_item current_user cid store (.response 200 donation_data)
        (.transportError e) dbRes notifRes now =
        ⟨503, .updateUnavailable e, store⟩) ∧
    (∀ pst pbody, pst ≠ 200 →
        claim_item current_user cid store (.response 200 donation_data)
          (.response pst pbody) dbRes notifRes now =
        ⟨400, .updateFailed pbody, store⟩) := by
  constructor
  · intro e
    simp [claim_item, hvalid, hfind, hown, hpend, havail]
  · intro pst pbody hpst
    simp [claim_item, hvalid, hfind, hown, hpend, havail, hpst]

/-- Closed instance of `claim_patch_failure_preserves_pending`. -/
theorem claim_patch_failure_preserves_pending_witness :
    claim_item "u@x" "000000000000000000000000"
      [⟨"000000000000000000000000", "u@x", "d1", "", 0, "pending", none⟩]
      (.response 200 ⟨some true, some "T", some "D", some "C", none, none, none, some "e@x"⟩)
      (.transportError "timeout") .ok (.response 200 "") 7 =
      ⟨503, .updateUnavailable "timeout",
       [⟨"000000000000000000000000", "u@x", "d1", "", 0, "pending", none⟩]⟩ ∧
    claim_item "u@x" "000000000000000000000000"
      [⟨"000000000000000000000000", "u@x", "d1", "", 0, "pending", none⟩]
      (.response 200 ⟨some true, some "T", some "D", some "C", none, none, none, some "e@x"⟩)
      (.response 500 "err") .ok (.response 200 "") 7 =
      ⟨400, .updateFailed "err",
       [⟨"000000000000000000000000", "u@x", "d1", "", 0, "pending", none⟩]⟩ := by
  have h := claim_patch_failure_preserves_pending "u@x" "000000000000000000000000"
    [⟨"000000000000000000000000", "u@x", "d1", "", 0, "pending", none⟩]
    ⟨"000000000000000000000000", "u@x", "d1", "", 0, "pending", none⟩
    ⟨some true, some "T", some "D", some "C", none, none, none, some "e@x"⟩
    .ok (.response 200 "") 7 (by decide) (by decide) rfl rfl (by decide)
  exact ⟨h.1 "timeout", h.2 500 "err" (by decide)⟩

/-! ## C2 -/

/-- C2 counterexample: a first claim on a pending item returns the success
payload (message `Item claimed successfully`, with `donation_details`);
a second claim on the now-claimed item returns 200 but with the distinct
already-claimed payload (message `Item already claimed`, no
`donation_details`), so the retry does NOT return "the same success summary
as the original successful claim". -/
theorem claim_retry_payload_differs :
    claim_item "u@x" "000000000000000000000000"
      [⟨"000000000000000000000000", "u@x", "d1", "", 0, "pending", none⟩]
      (.response 200 ⟨some true, some "T", some "D", some "C", none, none, none, some "e@x"⟩)
      (.response 200 "") .ok (.response 200 "") 7 =
      ⟨200, .success "000000000000000000000000" "d1" (some "T") (some "C"),
       [⟨"000000000000000000000000", "u@x", "d1", "", 0, "claimed", some 7⟩]⟩ ∧
    claim_item "u@x" "000000000000000000000000"
      [⟨"000000000000000000000000", "u@x", "d1", "", 0, "claimed", some 7⟩]
      (.response 200 ⟨some true, some "T", some "D", some "C", none, none, none, some "e@x"⟩)
      (.response 200 "") .ok (.response 200 "") 8 =
      ⟨200, .alreadyClaimed "000000000000000000000000" "d1",
       [⟨"000000000000000000000000", "u@x", "d1", "", 0, "claimed", some 7⟩]⟩ ∧
    ClaimResp.alreadyClaimed "000000000000000000000000" "d1" ≠
      ClaimResp.success "000000000000000000000000" "d1" (some "T") (some "C") := by
  refine ⟨by decide, by decide, by decide⟩

/-- C2 (amended): a claim on an already-claimed item owned by the caller
returns 200 immediately with the already-claimed summary (item id, donation
id, status `claimed`) — a payload distinct from the original claim's
success summary — and executes none of the downstream steps: the result is
the same for every gateway / database / notification outcome and the cart
collection is unchanged. -/
theorem claim_already_claimed_idempotent
    (current_user cid : String) (store : Store) (item : CartItem)
    (hvalid : isValidObjectId cid = true)
    (hfind : findItem store cid = some item)
    (hown : item.user_email = current_user)
    (hclaimed : item.status = "claimed") :
    ∀ getRes patchRes dbRes notifRes now,
      claim_item current_user cid store getRes patchRes dbRes notifRes now =
        ⟨200, .alreadyClaimed cid item.donation_id, store⟩ := by
  intro getRes patchRes dbRes notifRes now
  simp [claim_item, hvalid, hfind, hown, hclaimed]

/-- Closed instance of `claim_already_claimed_idempotent`. -/
theorem claim_already_claimed_idempotent_witness :
    claim_item "u@x" "000000000000000000000000"
      [⟨"000000000000000000000000", "u@x", "d1", "", 0, "claimed", some 7⟩]
      (.transportError "down") (.transportError "down") (.exn "boom")
      (.transportError "down") 8 =
      ⟨200, .alreadyClaimed "000000000000000000000000" "d1",
       [⟨"000000000000000000000000", "u@x", "d1", "", 0, "claimed", some 7⟩]⟩ := by
  exact claim_already_claimed_idempotent "u@x" "000000000000000000000000"
    [⟨"000000000000000000000000", "u@x", "d1", "", 0, "claimed", some 7⟩]
    ⟨"000000000000000000000000", "u@x", "d1", "", 0, "claimed", some 7⟩
    (by decide) (by decide) rfl rfl
    (.transportError "down") (.transportError "down") (.exn "boom")
    (.transportError "down") 8

/-! ## C3 -/

/-- C3: for both remove and claim the checks run in the order id-format
validation, existence, ownership: a malformed id returns 400 invalid-id on
every store (hence before any lookup) and for every collaborator outcome; a
well-formed id naming no item returns 404; a well-formed id naming an item
of a different principal returns 403 forbidden, never 404. -/
theorem remove_claim_check_order
    (current_user cid : String) (store : Store)
    (getRes : HttpResult DonationJson) (patchRes : HttpResult String)
    (dbRes : DbUpdateOutcome) (notifRes : HttpResult String) (now : Nat) :
    (¬ isValidObjectId cid = true →
      remove_from_cart current_user cid store = ⟨400, .invalidId, store⟩ ∧
      claim_item current_user cid store getRes patchRes dbRes notifRes now =
        ⟨400, .invalidId, store⟩) ∧
    (isValidObjectId cid = true → findItem store cid = none →
      remove_from_cart current_user cid store = ⟨404, .notFound, store⟩ ∧
      claim_item current_user cid store getRes patchRes dbRes notifRes now =
        ⟨404, .notFound, store⟩) ∧
    (∀ item, isValidObjectId cid = true → findItem store cid = some item →
      item.user_email ≠ current_user →
      remove_from_cart current_user cid store = ⟨403, .forbidden, store⟩ ∧
      claim_item current_user cid store getRes patchRes dbRes notifRes now =
        ⟨403, .forbidden, store⟩) := by
  refine ⟨fun hbad => ?_, fun hv hnone => ?_, fun item hv hfind hne => ?_⟩
  · exact ⟨by simp [remove_from_cart, hbad], by simp [claim_item, hbad]⟩
  · exact ⟨by simp [remove_from_cart, hv, hnone],
      by simp [claim_item, hv, hnone]⟩
  · exact ⟨by simp [remove_from_cart, hv, hfind, hne],
      by simp [claim_item, hv, hfind, hne]⟩

/-- Closed instances of `remove_claim_check_order`: malformed id on a
nonempty store, missing item, and foreign-owned item. -/
theorem remove_claim_check_order_witness :
    (remove_from_cart "u@x" "not-hex"
      [⟨"000000000000000000000000", "u@x", "d1", "", 0, "pending", none⟩] =
      ⟨400, .invalidId,
       [⟨"000000000000000000000000", "u@x", "d1", "", 0, "pending", none⟩]⟩) ∧
    (claim_item "u@x" "111111111111111111111111" [] (.response 200
        ⟨some true, none, none, none, none, none, none, none⟩)
      (.response 200 "") .ok (.response 200 "") 7 = ⟨404, .notFound, []⟩) ∧
    (remove_from_cart "intruder@x" "000000000000000000000000"
      [⟨"000000000000000000000000", "u@x", "d1", "", 0, "pending", none⟩] =
      ⟨403, .forbidden,
       [⟨"000000000000000000000000", "u@x", "d1", "", 0, "pending", none⟩]⟩) := by
  refine ⟨?_, ?_, ?_⟩
  · exact (remove_claim_check_order "u@x" "not-hex"
      [⟨"000000000000000000000000", "u@x", "d1", "", 0, "pending", none⟩]
      (.response 200 ⟨some true, none, none, none, none, none, none, none⟩)
      (.response 200 "") .ok (.response 200 "") 7).1 (by decide) |>.1
  · exact ((remove_claim_check_order "u@x" "111111111111111111111111" []
      (.response 200 ⟨some true, none, none, none, none, none, none, none⟩)
      (.response 200 "") .ok (.response 200 "") 7).2.1 (by decide)
      (by decide)).2
  · exact ((remove_claim_check_order "intruder@x" "000000000000000000000000"
      [⟨"000000000000000000000000", "u@x", "d1", "", 0, "pending", none⟩]
      (.response 200 ⟨some true, none, none, none, none, none, none, none⟩)
      (.response 200 "") .ok (.response 200 "") 7).2.2
      ⟨"000000000000000000000000", "u@x", "d1", "", 0, "pending", none⟩
      (by decide) (by decide) (by decide)).1

/-! ## C4 -/

/-- C4: in the claim workflow's availability re-validation, a
transport-level failure of the donation `GET` returns 503
service-unavailable with the collection unchanged (the item stays
`pending`), so a later retry from the same state with a healthy gateway and
an available donation succeeds; a 200 response showing the donation
unavailable instead returns the terminal 400 donation-not-available
outcome.  The two failures always carry distinct bodies and status
codes. -/
theorem claim_transport_vs_not_available
    (current_user cid : String) (store : Store) (item : CartItem)
    (dbRes : DbUpdateOutcome) (notifRes : HttpResult String) (now : Nat)
    (hvalid : isValidObjectId cid = true)
    (hfind : findItem store cid = some item)
    (hown : item.user_email = current_user)
    (hpend : item.status = "pending") :
    (∀ e patchRes, claim_item current_user cid store (.transportError e)
        patchRes dbRes notifRes now = ⟨503, .serviceUnavailable e, store⟩) ∧
    (∀ donation_data patchRes, donation_data.available.getD false = false →
        claim_item current_user cid store (.response 200 donation_data)
          patchRes dbRes notifRes now =
          ⟨400, .notAvailable item.donation_id, store⟩) ∧
    (∀ donation_data pbody, donation_data.available.getD false = true →
        claim_item current_user cid store (.response 200 donation_data)
          (.response 200 pbody) .ok notifRes now =
          ⟨200, .success cid item.donation_id donation_data.title
            donation_data.category, updateFirst store cid now⟩) := by
  refine ⟨fun e patchRes => ?_, fun donation_data patchRes hnav => ?_,
    fun donation_data pbody hav => ?_⟩
  · simp [claim_item, hvalid, hfind, hown, hpend]
  · simp [claim_item, hvalid, hfind, hown, hpend, hnav]
  · simp [claim_item, hvalid, hfind, hown, hpend, hav]

/-- Closed instance of `claim_transport_vs_not_available`: the timeout case,
the unavailable case, and the successful retry from the unchanged state. -/
theorem claim_transport_vs_not_available_witness :
    claim_item "u@x" "000000000000000000000000"
      [⟨"000000000000000000000000", "u@x", "d1", "", 0, "pending", none⟩]
      (.transportError "timed out") (.response 200 "") .ok (.response 200 "") 7 =
      ⟨503, .serviceUnavailable "timed out",
       [⟨"000000000000000000000000", "u@x", "d1", "", 0, "pending", none⟩]⟩ ∧
    claim_item "u@x" "000000000000000000000000"
      [⟨"000000000000000000000000", "u@x", "d1", "", 0, "pending", none⟩]
      (.response 200 ⟨some false, none, none, none, none, none, none, none⟩)
      (.response 200 "") .ok (.response 200 "") 7 =
      ⟨400, .notAvailable "d1",
       [⟨"000000000000000000000000", "u@x", "d1", "", 0, "pending", none⟩]⟩ ∧
    claim_item "u@x" "000000000000000000000000"
      [⟨"000000000000000000000000", "u@x", "d1", "", 0, "pending", none⟩]
      (.response 200 ⟨some true, some "T", none, some "C", none, none, none, none⟩)
      (.response 200 "") .ok (.response 200 "") 9 =
      ⟨200, .success "000000000000000000000000" "d1" (some "T") (some "C"),
       [⟨"000000000000000000000000", "u@x", "d1", "", 0, "claimed", some 9⟩]⟩ := by
  have h := claim_transport_vs_not_available "u@x" "000000000000000000000000"
    [⟨"000000000000000000000000", "u@x", "d1", "", 0, "pending", none⟩]
    ⟨"000000000000000000000000", "u@x", "d1", "", 0, "pending", none⟩
    .ok (.response 200 "") 7 (by decide) (by decide) rfl rfl
  have h' := claim_transport_vs_not_available "u@x" "000000000000000000000000"
    [⟨"000000000000000000000000", "u@x", "d1", "", 0, "pending", none⟩]
    ⟨"000000000000000000000000", "u@x", "d1", "", 0, "pending", none⟩
    .ok (.response 200 "") 9 (by decide) (by decide) rfl rfl
  exact ⟨h.1 "timed out" (.response 200 ""),
    h.2.1 ⟨some false, none, none, none, none, none, none, none⟩
      (.response 200 "") (by decide),
    h'.2.2 ⟨some true, some "T", none, some "C", none, none, none, none⟩
      "" (by decide)⟩

/-! ## C5 -/

/-- C5: an add request carrying a donation id, for which the gateway
returns a response: unless the response is 200 with `available` true, add
answers 404 donation-not-available and inserts nothing (for every insert
outcome, which is never consulted); when the response is 200 with
`available` true and the insert succeeds, add builds the cart item with the
caller's principal, status `pending`, `created_at = now` and notes
defaulting to empty, appends it to the collection, and returns it with
201. -/
theorem add_gateway_availability_gate
    (current_user donation_id : String) (notes : Option String)
    (store : Store) (now : Nat) :
    (∀ st donation_data ins,
        ¬ (st = 200 ∧ donation_data.available.getD false = true) →
        add_to_cart current_user (some ⟨some donation_id, notes⟩)
          (.response st donation_data) ins now store =
          ⟨404, .notAvailable, store⟩) ∧
    (∀ donation_data newId, donation_data.available.getD false = true →
        add_to_cart current_user (some ⟨some donation_id, notes⟩)
          (.response 200 donation_data) (.ok newId) now store =
          ⟨201,
           .created ⟨newId, current_user, donation_id, notes.getD "", now,
             "pending", none⟩,
           store ++ [⟨newId, current_user, donation_id, notes.getD "", now,
             "pending", none⟩]⟩) := by
  constructor
  · intro st donation_data ins hne
    by_cases hst : st = 200
    · subst hst
      have hav : donation_data.available.getD false = false := by
        cases hgetD : donation_data.available.getD false
        · rfl
        · exact absurd ⟨rfl, hgetD⟩ hne
      simp [add_to_cart, hav]
    · simp [add_to_cart, hst]
  · intro donation_data newId hav
    simp [add_to_cart, hav]

/-- Closed instances of `add_gateway_availability_gate`: an unavailable
donation (404, nothing inserted) and an available one (201, item
appended). -/
theorem add_gateway_availability_gate_witness :
    add_to_cart "u@x" (some ⟨some "d1", none⟩)
      (.response 200 ⟨some false, none, none, none, none, none, none, none⟩)
      (.ok "000000000000000000000000") 3 [] = ⟨404, .notAvailable, []⟩ ∧
    add_to_cart "u@x" (some ⟨some "d1", none⟩)
      (.response 200 ⟨some true, none, none, none, none, none, none, none⟩)
      (.ok "000000000000000000000000") 3 [] =
      ⟨201,
       .created ⟨"000000000000000000000000", "u@x", "d1", "", 3, "pending", none⟩,
       [⟨"000000000000000000000000", "u@x", "d1", "", 3, "pending", none⟩]⟩ := by
  have h := add_gateway_availability_gate "u@x" "d1" none [] 3
  exact ⟨h.1 200 ⟨some false, none, none, none, none, none, none, none⟩
      (.ok "000000000000000000000000") (by decide),
    h.2 ⟨some true, none, none, none, none, none, none, none⟩
      "000000000000000000000000" (by decide)⟩

/-! ## C6 -/

/-- C6: once a claim reaches and completes the local commit, the response
(200 with the success summary) and the committed collection state are the
same for every notification outcome — response with any status, or a
transport failure — and the stored item stays `claimed` with `claimed_at`
set; success is determined solely by the local commit. -/
theorem claim_success_independent_of_notify
    (current_user cid : String) (store : Store) (item : CartItem)
    (donation_data : DonationJson) (pbody : String) (now : Nat)
    (hvalid : isValidObjectId cid = true)
    (hfind : findItem store cid = some item)
    (hown : item.user_email = current_user)
    (hpend : item.status = "pending")
    (havail : donation_data.available.getD false = true) :
    ∀ notifRes,
      claim_item current_user cid store (.response 200 donation_data)
        (.response 200 pbody) .ok notifRes now =
        ⟨200, .success cid item.donation_id donation_data.title
          donation_data.category, updateFirst store cid now⟩ ∧
      findItem (updateFirst store cid now) cid =
        some { item with status := "claimed", claimed_at := some now } := by
  intro notifRes
  constructor
  · simp [claim_item, hvalid, hfind, hown, hpend, havail]
  · exact findItem_updateFirst store cid now item hfind

/-- Closed instance of `claim_success_independent_of_notify` at a failing
notification round-trip. -/
theorem claim_success_independent_of_notify_witness :
    claim_item "u@x" "000000000000000000000000"
      [⟨"000000000000000000000000", "u@x", "d1", "", 0, "pending", none⟩]
      (.response 200 ⟨some true, some "T", some "D", some "C", none, none, none, some "e@x"⟩)
      (.response 200 "") .ok (.transportError "notify down") 7 =
      ⟨200, .success "000000000000000000000000" "d1" (some "T") (some "C"),
       [⟨"000000000000000000000000", "u@x", "d1", "", 0, "claimed", some 7⟩]⟩ ∧
    findItem
      (updateFirst
        [⟨"000000000000000000000000", "u@x", "d1", "", 0, "pending", none⟩]
        "000000000000000000000000" 7) "000000000000000000000000" =
      some ⟨"000000000000000000000000", "u@x", "d1", "", 0, "claimed", some 7⟩ := by
  exact claim_success_independent_of_notify "u@x" "000000000000000000000000"
    [⟨"000000000000000000000000", "u@x", "d1", "", 0, "pending", none⟩]
    ⟨"000000000000000000000000", "u@x", "d1", "", 0, "pending", none⟩
    ⟨some true, some "T", some "D", some "C", none, none, none, some "e@x"⟩
    "" 7 (by decide) (by decide) rfl rfl (by decide)
    (.transportError "notify down")

/-! ## C7 -/

/-- C7 counterexample: an insert failure whose cause is not a uniqueness
violation (here a transient store fault on an empty collection, so no
duplicate can exist) is still reported as the already-in-cart error with
status 400 — the handler catches every insert exception identically, so an
other-cause failure IS reported as AlreadyInCart, contradicting the
claim. -/
theorem add_transient_fault_reported_already_in_cart :
    add_to_cart "u@x" (some ⟨some "d1", none⟩)
      (.response 200 ⟨some true, none, none, none, none, none, none, none⟩)
      (.otherError "socket timeout") 3 [] =
      ⟨400, .alreadyInCart "socket timeout", []⟩ := by
  decide

/-- C7 (amended): an add whose store insert fails is reported as the
already-in-cart error (400) for every failure cause — uniqueness violation
or any other exception — with the collection unchanged; only the echoed
details string distinguishes the causes, so callers cannot disambiguate
duplicate-add from transient faults by error kind. -/
theorem add_insert_failure_always_already_in_cart
    (current_user donation_id : String) (notes : Option String)
    (store : Store) (donation_data : DonationJson) (now : Nat)
    (hav : donation_data.available.getD false = true) :
    ∀ e, add_to_cart current_user (some ⟨some donation_id, notes⟩)
        (.response 200 donation_data) (.dupKeyError e) now store =
        ⟨400, .alreadyInCart e, store⟩ ∧
      add_to_cart current_user (some ⟨some donation_id, notes⟩)
        (.response 200 donation_data) (.otherError e) now store =
        ⟨400, .alreadyInCart e, store⟩ := by
  intro e
  exact ⟨by simp [add_to_cart, hav], by simp [add_to_cart, hav]⟩

/-- Closed instance of `add_insert_failure_always_already_in_cart`. -/
theorem add_insert_failure_always_already_in_cart_witness :
    add_to_cart "u@x" (some ⟨some "d1", none⟩)
      (.response 200 ⟨some true, none, none, none, none, none, none, none⟩)
      (.dupKeyError "E11000 duplicate key") 3
      [⟨"000000000000000000000000", "u@x", "d1", "", 0, "pending", none⟩] =
      ⟨400, .alreadyInCart "E11000 duplicate key",
       [⟨"000000000000000000000000", "u@x", "d1", "", 0, "pending", none⟩]⟩ := by
  exact (add_insert_failure_always_already_in_cart "u@x" "d1" none
    [⟨"000000000000000000000000", "u@x", "d1", "", 0, "pending", none⟩]
    ⟨some true, none, none, none, none, none, none, none⟩ 3 (by decide)
    "E11000 duplicate key").1

/-! ## C10 -/

/-- C10: a 200 gateway response whose JSON body lacks the `available` field
is treated as not available by both add and claim (`.get('available',
False)` defaults to false): add answers 404 donation-not-available with
nothing inserted, and claim answers 400 donation-no-longer-available with
the collection unchanged, the item still `pending`. -/
theorem missing_available_field_means_unavailable
    (current_user cid donation_id : String) (notes : Option String)
    (store : Store) (item : CartItem) (donation_data : DonationJson)
    (ins : InsertOutcome) (patchRes : HttpResult String)
    (dbRes : DbUpdateOutcome) (notifRes : HttpResult String) (now : Nat)
    (hnone : donation_data.available = none)
    (hvalid : isValidObjectId cid = true)
    (hfind : findItem store cid = some item)
    (hown : item.user_email = current_user)
    (hpend : item.status = "pending") :
    add_to_cart current_user (some ⟨some donation_id, notes⟩)
      (.response 200 donation_data) ins now store =
      ⟨404, .notAvailable, store⟩ ∧
    claim_item current_user cid store (.response 200 donation_data)
      patchRes dbRes notifRes now =
      ⟨400, .notAvailable item.donation_id, store⟩ := by
  have hav : donation_data.available.getD false = false := by rw [hnone]; rfl
  exact ⟨by simp [add_to_cart, hav],
    by simp [claim_item, hvalid, hfind, hown, hpend, hav]⟩

/-- Closed instance of `missing_available_field_means_unavailable`. -/
theorem missing_available_field_means_unavailable_witness :
    add_to_cart "u@x" (some ⟨some "d1", none⟩)
      (.response 200 ⟨none, none, none, none, none, none, none, none⟩)
      (.ok "111111111111111111111111") 3
      [⟨"000000000000000000000000", "u@x", "d1", "", 0, "pending", none⟩] =
      ⟨404, .notAvailable,
       [⟨"000000000000000000000000", "u@x", "d1", "", 0, "pending", none⟩]⟩ ∧
    claim_item "u@x" "000000000000000000000000"
      [⟨"000000000000000000000000", "u@x", "d1", "", 0, "pending", none⟩]
      (.response 200 ⟨none, none, none, none, none, none, none, none⟩)
      (.response 200 "") .ok (.response 200 "") 7 =
      ⟨400, .notAvailable "d1",
       [⟨"000000000000000000000000", "u@x", "d1", "", 0, "pending", none⟩]⟩ := by
  exact missing_available_field_means_unavailable "u@x"
    "000000000000000000000000" "d1" none
    [⟨"000000000000000000000000", "u@x", "d1", "", 0, "pending", none⟩]
    ⟨"000000000000000000000000", "u@x", "d1", "", 0, "pending", none⟩
    ⟨none, none, none, none, none, none, none, none⟩
    (.ok "111111111111111111111111") (.response 200 "") .ok (.response 200 "")
    7 rfl (by decide) (by decide) rfl rfl

/-! ## C8 -/

/-- C8 counterexample: a transport-level failure of a donation lookup during
list is not caught (`requests.get` in `get_cart` has no try/except), so the
whole request aborts with the exception instead of returning 200 with the
item silently dropped. -/
theorem get_cart_transport_failure_aborts :
    get_cart "u@x"
      [⟨"000000000000000000000000", "u@x", "d1", "", 0, "pending", none⟩]
      (fun _ => .transportError "connection refused") =
      .error "connection refused" ∧
    get_cart "u@x"
      [⟨"000000000000000000000000", "u@x", "d1", "", 0, "pending", none⟩]
      (fun _ => .transportError "connection refused") ≠
      .ok (200, []) := by
  exact ⟨rfl, fun h => Except.noConfusion h⟩

/-- When every donation lookup of the list returns a response, the
enhancement loop returns exactly the 200-status items, enriched. -/
theorem enhanceCart_all_responses (gets : String → HttpResult DonationJson)
    (l : List CartItem)
    (hresp : ∀ it ∈ l, (gets it.donation_id).isResponse = true) :
    enhanceCart gets l = .ok (l.filterMap fun it =>
      match gets it.donation_id with
      | .response st donation_data =>
          if st = 200 then some (mkEnhanced it donation_data) else none
      | .transportError _ => none) := by
  induction l with
  | nil => rfl
  | cons it rest ih =>
      have hhead := hresp it (List.mem_cons_self it rest)
      have htail : ∀ x ∈ rest, (gets x.donation_id).isResponse = true :=
        fun x hx => hresp x (List.mem_cons_of_mem it hx)
      cases hres : gets it.donation_id with
      | transportError e =>
          rw [hres] at hhead
          simp [HttpResult.isResponse] at hhead
      | response st donation_data =>
          by_cases hst : st = 200
          · subst hst
            simp [enhanceCart, hres, ih htail, List.filterMap_cons, Except.map]
          · simp [enhanceCart, hres, ih htail, List.filterMap_cons, hst,
              Except.map]

/-- C8 (amended): when every donation lookup of the caller's items returns
a response, list answers 200 with exactly those items whose lookup returned
200, each enriched with the donation display fields, and the non-200 items
silently dropped; a transport-level lookup failure, by contrast, aborts the
whole request with the uncaught exception (see the counterexample). -/
theorem get_cart_drops_failed_lookups (current_user : String) (store : Store)
    (gets : String → HttpResult DonationJson)
    (hresp : ∀ it ∈ store, (gets it.donation_id).isResponse = true) :
    get_cart current_user store gets = .ok (200,
      (store.filter fun it => it.user_email == current_user).filterMap fun it =>
        match gets it.donation_id with
        | .response st donation_data =>
            if st = 200 then some (mkEnhanced it donation_data) else none
        | .transportError _ => none) := by
  unfold get_cart
  rw [enhanceCart_all_responses gets _
    (fun it hit => hresp it (List.mem_of_mem_filter hit))]
  rfl

/-- Closed instance of `get_cart_drops_failed_lookups`: one lookup answers
200 (item kept, enriched), one answers 404 (item dropped), the request
still returns 200. -/
theorem get_cart_drops_failed_lookups_witness :
    get_cart "u@x"
      [⟨"000000000000000000000000", "u@x", "d1", "my notes", 0, "pending", none⟩,
       ⟨"111111111111111111111111", "u@x", "d2", "", 1, "pending", none⟩]
      (fun d => if d == "d1" then
          .response 200 ⟨some true, some "T", some "D", some "C", some "good",
            some "img", some "city", none⟩
        else .response 404 ⟨none, none, none, none, none, none, none, none⟩) =
      .ok (200,
        [⟨"000000000000000000000000", "u@x", "d1", "my notes", 0, "pending",
          ⟨some "T", some "D", some "C", some "good", some "img", some "city"⟩⟩]) := by
  rw [get_cart_drops_failed_lookups "u@x"
    [⟨"000000000000000000000000", "u@x", "d1", "my notes", 0, "pending", none⟩,
     ⟨"111111111111111111111111", "u@x", "d2", "", 1, "pending", none⟩]
    (fun d => if d == "d1" then
        .response 200 ⟨some true, some "T", some "D", some "C", some "good",
          some "img", some "city", none⟩
      else .response 404 ⟨none, none, none, none, none, none, none, none⟩)
    (by decide)]
  rfl

/-! ## C9 -/

/-- With pairwise-distinct ids, two collection members sharing an id are the
same document. -/
theorem eq_of_mem_idsNodup {store : Store} (h : idsNodup store)
    {a b : CartItem} (ha : a ∈ store) (hb : b ∈ store) (hid : a.id = b.id) :
    a = b :=
  List.inj_on_of_nodup_map h ha hb hid

/-- `statusTransOk` is reflexive on a well-formed collection. -/
theorem statusTransOk_refl {store : Store} (h : idsNodup store) :
    statusTransOk store store := by
  intro it hit it' hit' hid
  exact Or.inl (eq_of_mem_idsNodup h hit' hit hid.symm)

/-- A post-state contained in the pre-state only keeps documents
unchanged. -/
theorem statusTransOk_of_subset {store new : Store} (h : idsNodup store)
    (hsub : ∀ it' ∈ new, it' ∈ store) : statusTransOk store new := by
  intro it hit it' hit' hid
  exact Or.inl (eq_of_mem_idsNodup h (hsub it' hit') hit hid.symm)

/-- `delete_one` only removes documents. -/
theorem mem_deleteFirst {store : Store} {cid : String} {it' : CartItem}
    (h : it' ∈ deleteFirst store cid) : it' ∈ store := by
  induction store with
  | nil => simp [deleteFirst] at h
  | cons a rest ih =>
      by_cases ha : a.id = cid
      · simp [deleteFirst, ha] at h
        exact List.mem_cons_of_mem a h
      · simp [deleteFirst, ha] at h
        rcases h with h | h
        · exact h ▸ List.mem_cons_self a rest
        · exact List.mem_cons_of_mem a (ih h)

/-- Every document of the post-state of `update_one` is either an unchanged
document of the pre-state, or the claimed update of a matching document of
the pre-state. -/
theorem mem_updateFirst {store : Store} {cid : String} {now : Nat}
    {it' : CartItem} (h : it' ∈ updateFirst store cid now) :
    it' ∈ store ∨ ∃ a, a ∈ store ∧ a.id = cid ∧
      it' = { a with status := "claimed", claimed_at := some now } := by
  induction store with
  | nil => simp [updateFirst] at h
  | cons b rest ih =>
      by_cases hb : b.id = cid
      · simp [updateFirst, hb] at h
        rcases h with h | h
        · refine Or.inr ⟨b, List.mem_cons_self b rest, hb, ?_⟩
          rw [h, hb]
        · exact Or.inl (List.mem_cons_of_mem b h)
      · simp [updateFirst, hb] at h
        rcases h with h | h
        · exact Or.inl (h ▸ List.mem_cons_self b rest)
        · rcases ih h with h' | ⟨a, ha, haid, heq⟩
          · exact Or.inl (List.mem_cons_of_mem b h')
          · exact Or.inr ⟨a, List.mem_cons_of_mem b ha, haid, heq⟩

/-- `find_one` returns a member matching the queried id. -/
theorem findItem_spec {store : Store} {cid : String} {item : CartItem}
    (h : findItem store cid = some item) : item ∈ store ∧ item.id = cid := by
  unfold findItem at h
  exact ⟨List.mem_of_find?_eq_some h, by simpa using List.find?_some h⟩

/-- The claim commit preserves the claimed-at/status invariant. -/
theorem claimedAtIffClaimed_updateFirst {store : Store} {cid : String}
    {now : Nat} (hinv : claimedAtIffClaimed store) :
    claimedAtIffClaimed (updateFirst store cid now) := by
  intro it' hit'
  rcases mem_updateFirst hit' with h | ⟨a, _, _, heq⟩
  · exact hinv it' h
  · subst heq; simp

/-- The claim commit, run when the found document is `pending`, performs
only the pending-to-claimed transition. -/
theorem statusTransOk_updateFirst {store : Store} {cid : String} {now : Nat}
    {item : CartItem} (hids : idsNodup store)
    (hfind : findItem store cid = some item)
    (hpend : item.status = "pending") :
    statusTransOk store (updateFirst store cid now) := by
  intro it hit it' hit' hid
  rcases mem_updateFirst hit' with h | ⟨a, ha, haid, heq⟩
  · exact Or.inl (eq_of_mem_idsNodup hids h hit hid.symm)
  · obtain ⟨hmem, hitemid⟩ := findItem_spec hfind
    have haeq : a = item :=
      eq_of_mem_idsNodup hids ha hmem (haid.trans hitemid.symm)
    have hitid : it.id = a.id := by rw [hid, heq]
    have hita : it = a := eq_of_mem_idsNodup hids hit ha hitid
    refine Or.inr ⟨?_, ?_⟩
    · rw [hita, haeq]; exact hpend
    · rw [heq]

/-- Appending a freshly-created document (fresh id) keeps pre-state
documents unchanged. -/
theorem statusTransOk_append_fresh {store : Store} {x : CartItem}
    (hids : idsNodup store) (hfresh : ∀ it ∈ store, it.id ≠ x.id) :
    statusTransOk store (store ++ [x]) := by
  intro it hit it' hit' hid
  rcases List.mem_append.1 hit' with h | h
  · exact Or.inl (eq_of_mem_idsNodup hids h hit hid.symm)
  · simp at h
    subst h
    exact absurd hid (hfresh it hit)

/-- `remove_from_cart` either leaves the collection unchanged or deletes
the addressed document. -/
theorem remove_store_cases (u cid : String) (store : Store) :
    (remove_from_cart u cid store).store = store ∨
    (remove_from_cart u cid store).store = deleteFirst store cid := by
  unfold remove_from_cart
  split
  · exact Or.inl rfl
  · split
    · exact Or.inl rfl
    · split
      · exact Or.inl rfl
      · exact Or.inr rfl

/-- `clear_all_cart` leaves exactly the other principals' documents. -/
theorem clear_store_eq (u : String) (store : Store) :
    (clear_all_cart u store).store =
      store.filter fun it => ¬ (it.user_email == u) := by
  simp only [clear_all_cart]
  split <;> rfl

/-- `claim_item` either leaves the collection unchanged or commits the
claimed update, and the commit only happens when the found document is
`pending`. -/
theorem claim_store_cases (u cid : String) (store : Store)
    (g : HttpResult DonationJson) (p : HttpResult String)
    (db : DbUpdateOutcome) (nf : HttpResult String) (now : Nat) :
    (claim_item u cid store g p db nf now).store = store ∨
    ∃ item, findItem store cid = some item ∧ item.status = "pending" ∧
      (claim_item u cid store g p db nf now).store =
        updateFirst store cid now := by
  unfold claim_item
  split
  · exact Or.inl rfl
  split
  · exact Or.inl rfl
  next item hfind =>
    split
    · exact Or.inl rfl
    split
    · exact Or.inl rfl
    split
    · exact Or.inl rfl
    next hnp =>
      split
      · exact Or.inl rfl
      split
      · exact Or.inl rfl
      split
      · exact Or.inl rfl
      split
      · exact Or.inl rfl
      split
      · exact Or.inl rfl
      split
      · exact Or.inl rfl
      · exact Or.inl rfl
      · exact Or.inr ⟨item, hfind, not_not.mp hnp, rfl⟩

/-- `add_to_cart` either leaves the collection unchanged or appends the
newly created pending document. -/
theorem add_store_cases (u : String) (data : Option AddRequest)
    (g : HttpResult DonationJson) (ins : InsertOutcome) (now : Nat)
    (store : Store) :
    (add_to_cart u data g ins now store).store = store ∨
    ∃ newId item, ins = .ok newId ∧ item.id = newId ∧
      item.status = "pending" ∧ item.claimed_at = none ∧
      (add_to_cart u data g ins now store).store = store ++ [item] := by
  cases data with
  | none => exact Or.inl rfl
  | some body =>
      cases hdid : body.donation_id with
      | none =>
          left
          simp [add_to_cart, hdid]
      | some donation_id =>
          cases g with
          | transportError e =>
              left
              simp [add_to_cart, hdid]
          | response st donation_data =>
              cases ins with
              | ok newId =>
                  by_cases hcond :
                      st ≠ 200 ∨ ¬ (donation_data.available.getD false = true)
                  · left
                    simp only [add_to_cart, hdid]
                    rw [if_pos hcond]
                  · right
                    refine ⟨newId,
                      ⟨newId, u, donation_id, body.notes.getD "", now,
                        "pending", none⟩, rfl, rfl, rfl, rfl, ?_⟩
                    simp only [add_to_cart, hdid]
                    rw [if_neg hcond]
              | dupKeyError e =>
                  left
                  simp only [add_to_cart, hdid]
                  split <;> rfl
              | otherError e =>
                  left
                  simp only [add_to_cart, hdid]
                  split <;> rfl

/-- C9: every operation — add, list, remove, claim, clear — preserves the
data-model invariant that `claimed_at` is present iff `status == claimed`,
and the only status transition any operation performs on a surviving
document is `pending → claimed` (any other surviving document is returned
unchanged).  `idsNodup` is MongoDB `_id` uniqueness; `opWf` states that a
successful insert is assigned a fresh id. -/
theorem ops_preserve_invariants (op : Op) (store : Store)
    (hids : idsNodup store) (hwf : opWf op store)
    (hinv : claimedAtIffClaimed store) :
    claimedAtIffClaimed (runOp op store) ∧
      statusTransOk store (runOp op store) := by
  cases op with
  | list u gets =>
      exact ⟨hinv, statusTransOk_refl hids⟩
  | remove u cid =>
      simp only [runOp]
      have hsub : ∀ it' ∈ (remove_from_cart u cid store).store, it' ∈ store := by
        rcases remove_store_cases u cid store with h | h
        · rw [h]; exact fun it' h' => h'
        · rw [h]; exact fun it' h' => mem_deleteFirst h'
      exact ⟨fun it' h' => hinv it' (hsub it' h'),
        statusTransOk_of_subset hids hsub⟩
  | clearAll u =>
      simp only [runOp]
      have hsub : ∀ it' ∈ (clear_all_cart u store).store, it' ∈ store := by
        rw [clear_store_eq]
        exact fun it' h' => List.mem_of_mem_filter h'
      exact ⟨fun it' h' => hinv it' (hsub it' h'),
        statusTransOk_of_subset hids hsub⟩
  | claim u cid g p db nf now =>
      simp only [runOp]
      rcases claim_store_cases u cid store g p db nf now with
        h | ⟨item, hfind, hpend, h⟩
      · rw [h]; exact ⟨hinv, statusTransOk_refl hids⟩
      · rw [h]
        exact ⟨claimedAtIffClaimed_updateFirst hinv,
          statusTransOk_updateFirst hids hfind hpend⟩
  | add u data g ins now =>
      simp only [runOp]
      rcases add_store_cases u data g ins now store with
        h | ⟨newId, item, hins, hitid, hpend, hca, h⟩
      · rw [h]; exact ⟨hinv, statusTransOk_refl hids⟩
      · rw [h]
        constructor
        · intro it' hit'
          rcases List.mem_append.1 hit' with h' | h'
          · exact hinv it' h'
          · simp at h'
            subst h'
            simp [hca, hpend]
        · apply statusTransOk_append_fresh hids
          intro it hit
          rw [hitid]
          subst hins
          exact hwf it hit

/-- Closed instance of `ops_preserve_invariants` at a committing claim. -/
theorem ops_preserve_invariants_witness :
    claimedAtIffClaimed
      (runOp (.claim "u@x" "000000000000000000000000"
        (.response 200 ⟨some true, none, none, none, none, none, none, none⟩)
        (.response 200 "") .ok (.response 200 "") 7)
        [⟨"000000000000000000000000", "u@x", "d1", "", 0, "pending", none⟩]) ∧
    statusTransOk
      [⟨"000000000000000000000000", "u@x", "d1", "", 0, "pending", none⟩]
      (runOp (.claim "u@x" "000000000000000000000000"
        (.response 200 ⟨some true, none, none, none, none, none, none, none⟩)
        (.response 200 "") .ok (.response 200 "") 7)
        [⟨"000000000000000000000000", "u@x", "d1", "", 0, "pending", none⟩]) := by
  exact ops_preserve_invariants
    (.claim "u@x" "000000000000000000000000"
      (.response 200 ⟨some true, none, none, none, none, none, none, none⟩)
      (.response 200 "") .ok (.response 200 "") 7)
    [⟨"000000000000000000000000", "u@x", "d1", "", 0, "pending", none⟩]
    (by decide) trivial (by decide)
